import Mathlib

/-!
Shallow embedding of the UptimeMonitor monitoring engine.

The embedding models the SQLite database (`database_manager.py`) as an
in-memory record of table rows, the probe executor and scheduler
(`dockerized/backend/monitoring_service.py`) as pure state transformers over
that record plus an explicit probe-outcome parameter for the HTTP layer, and
the notification service (`notification_service.py`) as pure functions
parameterised by the fallible collaborators (storage failures and e-mail
delivery results).  Timestamps are integers (seconds); SQL
`CURRENT_TIMESTAMP` is modelled by an explicit `now` argument.  Python
exceptions are modelled with `Except`; a `try/except` that records and
continues becomes a total function.  Python floats are modelled by exact
rationals, with `round(x, 2)` as round-half-to-even on ℚ.
-/

/-- A row of the `checks` table: one ProbeRecord. -/
structure Check where
  timestamp : Int
  status : String
  response_code : Int
  response_time_ms : Int
deriving DecidableEq, Repr

/-- A row of the `urls` table: one monitored Target. -/
structure UrlRow where
  id : Nat
  url : String
  created_at : Int
  user_id : Nat
  category : Option String
deriving DecidableEq, Repr

/-- A row of the `users` table (only the fields the engine reads). -/
structure UserRow where
  id : Nat
  username : String
  email : String
deriving DecidableEq, Repr

/-- The database state: the three tables, rows in insertion (rowid) order. -/
structure DB where
  users : List UserRow
  urls : List UrlRow
  checks : List (Nat × Check)
deriving DecidableEq, Repr

/-- `DatabaseManager.add_check_result`: append-only `INSERT INTO checks`;
`now` models the `CURRENT_TIMESTAMP` column default. -/
def add_check_result (db : DB) (url_id : Nat) (response_code : Int) (status : String)
    (response_time_ms : Int) (now : Int) : DB :=
  { db with checks := db.checks ++ [(url_id, ⟨now, status, response_code, response_time_ms⟩)] }

/-- `DatabaseManager.get_all_urls`: every row of `urls`. -/
def get_all_urls (db : DB) : List UrlRow :=
  db.urls

/-- The ProbeRecords of one target, in insertion (rowid) order. -/
def checksFor (db : DB) (url_id : Nat) : List Check :=
  (db.checks.filter (fun p => p.1 == url_id)).map Prod.snd

/-- Python truthiness of the optional `user_id` argument (`if user_id:`). -/
def pyTruthy : Option Nat → Bool
  | none => false
  | some n => n != 0

/-- `SELECT ... FROM urls WHERE url = ?` (adding `AND user_id = ?` when that
argument is truthy), taking the first matching row as `fetchone` does. -/
def lookupUrlRow (db : DB) (url : String) (user_id : Option Nat) : Option UrlRow :=
  if pyTruthy user_id then
    db.urls.find? (fun r => r.url == url && some r.user_id == user_id)
  else
    db.urls.find? (fun r => r.url == url)

/-- `ORDER BY timestamp DESC LIMIT 1` over a target's checks: a check of
maximal timestamp (the earliest-inserted one among ties). -/
def latestCheck : List Check → Option Check
  | [] => none
  | c :: cs =>
    match latestCheck cs with
    | none => some c
    | some m => if m.timestamp > c.timestamp then some m else some c

/-- Round half to even to an integer (Python `round` on an exact value). -/
def roundHalfEven (q : ℚ) : ℤ :=
  if q - (⌊q⌋ : ℚ) < 1/2 then ⌊q⌋
  else if 1/2 < q - (⌊q⌋ : ℚ) then ⌊q⌋ + 1
  else if 2 ∣ ⌊q⌋ then ⌊q⌋ else ⌊q⌋ + 1

/-- Python `round(x, 2)`: round to two decimal places. -/
def round2 (q : ℚ) : ℚ :=
  (roundHalfEven (q * 100) : ℚ) / 100

/-- `(successful_checks / total_checks * 100) if total_checks > 0 else 0`,
with `successful` counting rows whose status is the string `success`. -/
def uptimeRaw (l : List Check) : ℚ :=
  if 0 < l.length then
    ((l.countP (fun c => c.status == "success") : ℚ) / (l.length : ℚ)) * 100
  else 0

/-- The dictionary returned by `DatabaseManager.get_url_status`; a `none`
category models the key being absent. -/
structure UrlStatus where
  url : String
  uptime_percentage : ℚ
  last_checked : Option Int
  category : Option String
deriving DecidableEq, Repr

/-- A rendered SQL timestamp string, abstracted to its three ordered
components: the `YYYY-MM-DD` date (as a day number — the zero-padded decimal
field compares byte-wise exactly as the number does), the separator byte, and
the time of day (again byte-wise equal to numeric order, zero-padded
`HH:MM:SS[.ffffff]`).  SQLite's `checks.timestamp` column has NUMERIC affinity,
so these date-time strings are stored and compared as TEXT with binary
collation: lexicographically by date, then separator, then time. -/
structure SqlTs where
  date : Int
  sep : Int
  time : Int
deriving DecidableEq, Repr

/-- Binary-collation `>` on rendered timestamps: lexicographic on date,
separator byte, then time of day. -/
def sqlTsGt (a b : SqlTs) : Bool :=
  decide (b.date < a.date) ||
    (a.date == b.date &&
      (decide (b.sep < a.sep) || (a.sep == b.sep && decide (b.time < a.time))))

/-- The calendar date (day number) of an instant. -/
def tsDate (t : Int) : Int := Int.fdiv t 86400

/-- The time of day of an instant. -/
def tsTime (t : Int) : Int := Int.fmod t 86400

/-- What SQLite's `CURRENT_TIMESTAMP` default stored for instant `t`:
`"YYYY-MM-DD HH:MM:SS"`, separator byte 32 (a space). -/
def storedRender (t : Int) : SqlTs := ⟨tsDate t, 32, tsTime t⟩

/-- What Python's `datetime.isoformat()` renders for instant `t`:
`"YYYY-MM-DDTHH:MM:SS.ffffff"`, separator byte 84 (the letter T). -/
def isoRender (t : Int) : SqlTs := ⟨tsDate t, 84, tsTime t⟩

/-- The checks counted for the uptime percentage:
`WHERE url_id = ? AND timestamp > ?` with `?` = `(datetime.now() -
timedelta(days=1)).isoformat()`, compared under binary TEXT collation against
the stored `CURRENT_TIMESTAMP` strings. -/
def windowChecks (db : DB) (url_id : Nat) (now : Int) : List Check :=
  (checksFor db url_id).filter
    (fun c => sqlTsGt (storedRender c.timestamp) (isoRender (now - 86400)))

/-- The trailing 24-hour window as the spec words it: the records whose
timestamp lies strictly after `now - 24h` and at or before `now`.  Stated from
the spec, for comparison with the filter the code performs. -/
def trailing24h (l : List Check) (now : Int) : List Check :=
  l.filter (fun c => now - 86400 < c.timestamp && c.timestamp ≤ now)

/-- `DatabaseManager.get_url_status`: the on-demand uptime snapshot. -/
def get_url_status (db : DB) (url : String) (user_id : Option Nat) (now : Int) :
    Option UrlStatus :=
  match lookupUrlRow db url user_id with
  | none => none
  | some row =>
    some { url := url
           uptime_percentage := round2 (uptimeRaw (windowChecks db row.id now))
           last_checked := (latestCheck (checksFor db row.id)).map Check.timestamp
           category := match row.category with
             | some s => if s == "" then none else some s
             | none => none }

/-- An exception raised by the HTTP layer during a probe, one constructor per
`except` clause of `MonitoringService.check_single_url`: `asyncio.TimeoutError`,
`aiohttp.ClientError`, and the catch-all `Exception`. -/
inductive HttpExn
  | timeout
  | clientError
  | otherExn
deriving DecidableEq, Repr

/-- The result of `session.get`: a response status code, or an exception. -/
abbrev HttpResult := Except HttpExn Int

/-- `MonitoringService.check_single_url`: classify one probe outcome and record
it via `add_check_result`.  Every exception class is caught, so the function is
total: each path appends exactly one check row. -/
def check_single_url (db : DB) (url_id : Nat) (result : HttpResult)
    (elapsed_ms : Int) (now : Int) : DB :=
  match result with
  | .ok code =>
    add_check_result db url_id code (if code < 400 then "success" else "error") elapsed_ms now
  | .error .timeout => add_check_result db url_id 0 "error" elapsed_ms now
  | .error .clientError => add_check_result db url_id 0 "error" elapsed_ms now
  | .error .otherExn => add_check_result db url_id 0 "error" elapsed_ms now

/-- `MonitoringService.check_all_urls`: one full probing pass.  The probes of a
pass run concurrently and each appends one row through the store; since appends
commute up to per-target history, the pass is modelled by one linearisation,
folding `check_single_url` over the target list fetched at the start.
`asyncio.gather(..., return_exceptions=True)` only logs failures, so the pass
returns the new database and never an exception. -/
def check_all_urls (db : DB) (outcome : Nat → HttpResult) (elapsed : Nat → Int)
    (now : Int) : DB :=
  (get_all_urls db).foldl
    (fun d row => check_single_url d row.id (outcome row.id) (elapsed row.id) now) db

/-- The scheduler state of `MonitoringService`: the `running` flag and the
shared `aiohttp` session (`none` before any start; `some b` a created session,
with `b` false once it has been closed). -/
structure SchedState where
  running : Bool
  session : Option Bool
deriving DecidableEq, Repr

/-- `MonitoringService.__init__`: `self.session = None`, `self.running = False`. -/
def initState : SchedState := ⟨false, none⟩

/-- The state change of `MonitoringService.start_monitoring`: set `running`
and create the shared session. -/
def startScheduler (_s : SchedState) : SchedState := ⟨true, some true⟩

/-- `MonitoringService.stop_monitoring`: clear `running` and close the session
if present — note the attribute keeps pointing at the (closed) session object. -/
def stopScheduler (s : SchedState) : SchedState :=
  ⟨false, s.session.map (fun _ => false)⟩

/-- Which connection resource an operation used. -/
inductive SessionUse
  | shared
  | temporary
  | noop
deriving DecidableEq, Repr

/-- `MonitoringService.check_single_url_immediately`: look the URL up in
`get_all_urls`; if absent do nothing; otherwise probe with the shared session
when `self.session` is non-`None` (Python truthiness of a session object),
else with a fresh temporary session that is afterwards reset to `None`.
Returns the new database, the new scheduler state, and which resource ran. -/
def check_single_url_immediately (db : DB) (s : SchedState) (url : String)
    (result : HttpResult) (elapsed_ms : Int) (now : Int) : DB × SchedState × SessionUse :=
  match (get_all_urls db).find? (fun r => r.url == url) with
  | none => (db, s, .noop)
  | some row =>
    if s.session.isSome then
      (check_single_url db row.id result elapsed_ms now, s, .shared)
    else
      (check_single_url db row.id result elapsed_ms now, s, .temporary)

/-- Observable scheduler events, for the temporal shape of `start_monitoring`. -/
inductive SchedEvent
  | createSession
  | checkPass
  | sleep (seconds : Nat)
  | notifyAll
deriving DecidableEq, Repr

/-- The body of the `while self.running` loop of `start_monitoring`, unrolled
for `n` iterations in which `running` stays true: sleep 300 seconds, run a full
pass, then (when the notification service initialised) broadcast summaries. -/
def monitorLoop (notifEnabled : Bool) : Nat → List SchedEvent
  | 0 => []
  | n + 1 =>
    SchedEvent.sleep 300 :: SchedEvent.checkPass ::
      ((if notifEnabled then [SchedEvent.notifyAll] else []) ++ monitorLoop notifEnabled n)

/-- The event trace of `MonitoringService.start_monitoring`: create the shared
session, run one immediate full pass, then enter the loop. -/
def start_monitoring (notifEnabled : Bool) (iterations : Nat) : List SchedEvent :=
  SchedEvent.createSession :: SchedEvent.checkPass :: monitorLoop notifEnabled iterations

/-- `DatabaseManager.get_user_urls`:
`WHERE user_id = ? ORDER BY created_at DESC`. -/
def get_user_urls (db : DB) (uid : Nat) : List UrlRow :=
  List.insertionSort (fun a b => b.created_at ≤ a.created_at)
    (db.urls.filter (fun r => r.user_id == uid))

/-- `DatabaseManager.get_users_with_urls`: the users owning at least one URL
(`SELECT DISTINCT ... INNER JOIN urls`). -/
def get_users_with_urls (db : DB) : List UserRow :=
  db.users.filter (fun u => db.urls.any (fun r => r.user_id == u.id))

/-- `DatabaseManager.get_user_info`: the first `users` row with this id. -/
def get_user_info (db : DB) (uid : Nat) : Option UserRow :=
  db.users.find? (fun u => u.id == uid)

/-- The `summary_data` list built by
`NotificationService.send_user_uptime_summary`: one status per owned URL for
which `get_url_status` returned a (truthy) dictionary. -/
def summary_data (db : DB) (uid : Nat) (now : Int) : List UrlStatus :=
  (get_user_urls db uid).filterMap (fun u => get_url_status db u.url (some uid) now)

/-- The `down_sites` counter of `send_user_uptime_summary`: statuses whose
`uptime_percentage` (always present in the dictionary) is below 99. -/
def down_sites (db : DB) (uid : Nat) (now : Int) : Nat :=
  (summary_data db uid now).countP (fun s => s.uptime_percentage < 99)

/-- The body of the `try` block of `send_user_uptime_summary`, in the exception
monad: `dbFail uid` models a storage exception while building this user's
summary, and `deliver uid email` the boolean result of `send_email` (itself
total: it catches all its exceptions).  With no URLs the body returns `False`
early; otherwise it assembles the summary and returns the delivery boolean. -/
def send_user_uptime_summaryE (db : DB) (dbFail : Nat → Bool)
    (deliver : Nat → String → Bool) (uid : Nat) (email : String) (now : Int) :
    Except String Bool :=
  if dbFail uid then .error "storage failure"
  else if (get_user_urls db uid).isEmpty then .ok false
  else
    let _summary := summary_data db uid now
    let _down := down_sites db uid now
    .ok (deliver uid email)

/-- `NotificationService.send_user_uptime_summary`: returns `False` when e-mail
is not configured, and otherwise runs the body with every exception caught and
turned into `False` — failure is reported to the caller as a boolean. -/
def send_user_uptime_summary (db : DB) (emailEnabled : Bool) (dbFail : Nat → Bool)
    (deliver : Nat → String → Bool) (uid : Nat) (email : String) (now : Int) : Bool :=
  if !emailEnabled then false
  else
    match send_user_uptime_summaryE db dbFail deliver uid email now with
    | .ok b => b
    | .error _ => false

/-- The `try` block of `NotificationService.send_notifications_to_all_users`:
loop over every user owning a URL and invoke `send_user_uptime_summary`,
collecting the per-user boolean outcomes (the code logs them).  The loop body
is the catching variant, so the fold lives in the exception monad only to show
nothing escapes it. -/
def send_notifications_to_all_usersE (db : DB) (emailEnabled : Bool)
    (dbFail : Nat → Bool) (deliver : Nat → String → Bool) (now : Int) :
    Except String (List (Nat × Bool)) :=
  if !emailEnabled then .ok []
  else
    (get_users_with_urls db).foldlM
      (fun acc u =>
        pure (acc ++ [(u.id, send_user_uptime_summary db emailEnabled dbFail deliver u.id u.email now)]))
      []

/-- `NotificationService.send_notifications_to_all_users`: the outer `except`
only logs, so the broadcast returns its outcome list in every case. -/
def send_notifications_to_all_users (db : DB) (emailEnabled : Bool)
    (dbFail : Nat → Bool) (deliver : Nat → String → Bool) (now : Int) :
    List (Nat × Bool) :=
  match send_notifications_to_all_usersE db emailEnabled dbFail deliver now with
  | .ok l => l
  | .error _ => []

/-! ### Concrete inputs used by witnesses and counterexamples -/

/-- A database with one user and one monitored URL with no checks yet. -/
def exDb : DB :=
  { users := [⟨1, "alice", "alice@example.com"⟩]
    urls := [⟨1, "https://a.example", 0, 1, none⟩]
    checks := [] }

/-- The database of the three-record window example: a success one hour ago, an
error two hours ago and a success 25 hours ago (now = 100000). -/
def exDb2 : DB :=
  { users := [⟨1, "alice", "alice@example.com"⟩]
    urls := [⟨1, "https://a.example", 0, 1, none⟩]
    checks := [(1, ⟨100000 - 90000, "success", 200, 10⟩),
               (1, ⟨100000 - 7200, "error", 500, 10⟩),
               (1, ⟨100000 - 3600, "success", 200, 10⟩)] }

/-- An empty database: no users, URLs or checks. -/
def exDb0 : DB :=
  { users := [], urls := [], checks := [] }

/-- A database with two monitored URLs, for pass witnesses. -/
def exDb5 : DB :=
  { users := [⟨1, "alice", "alice@example.com"⟩]
    urls := [⟨1, "https://a.example", 0, 1, none⟩, ⟨2, "https://b.example", 0, 1, none⟩]
    checks := [] }

/-- An outcome assignment in which target 1 times out and target 2 succeeds. -/
def exOutcome : Nat → HttpResult :=
  fun i => if i = 1 then .error .timeout else .ok 200

/-- The three-record example observed just after midnight: now is 00:30 on day
100 (instant 8641800), with a success one hour ago (23:30 of day 99), an error
two hours ago (22:30 of day 99), and a success 25 hours ago (23:30 of day 98). -/
def exDb6 : DB :=
  { users := [⟨1, "alice", "alice@example.com"⟩]
    urls := [⟨1, "https://a.example", 0, 1, none⟩]
    checks := [(1, ⟨8551800, "success", 200, 10⟩),
               (1, ⟨8634600, "error", 500, 10⟩),
               (1, ⟨8638200, "success", 200, 10⟩)] }

/-- The fold of one probing pass over an explicit row list (the list
`get_all_urls` returned at the start of the pass). -/
def passFold (outcome : Nat → HttpResult) (elapsed : Nat → Int) (now : Int)
    (rows : List UrlRow) (d : DB) : DB :=
  rows.foldl (fun d row => check_single_url d row.id (outcome row.id) (elapsed row.id) now) d

/-- The scheduler states reachable through the service's lifecycle calls. -/
inductive ReachableSched : SchedState → Prop
  | init : ReachableSched initState
  | start (s : SchedState) : ReachableSched s → ReachableSched (startScheduler s)
  | stop (s : SchedState) : ReachableSched s → ReachableSched (stopScheduler s)

/-! ### Helper lemmas -/

theorem roundHalfEven_intCast (n : ℤ) : roundHalfEven (n : ℚ) = n := by
  unfold roundHalfEven
  norm_num

theorem roundHalfEven_nonneg {q : ℚ} (hq : 0 ≤ q) : 0 ≤ roundHalfEven q := by
  have hf : 0 ≤ ⌊q⌋ := Int.floor_nonneg.mpr hq
  unfold roundHalfEven
  split_ifs <;> omega

theorem roundHalfEven_le {q : ℚ} {n : ℤ} (hq : q ≤ (n : ℚ)) : roundHalfEven q ≤ n := by
  have hf : ⌊q⌋ ≤ n := by
    have := Int.floor_le_floor hq
    simpa using this
  have hcast : (⌊q⌋ : ℚ) ≤ (n : ℚ) := by exact_mod_cast hf
  unfold roundHalfEven
  split_ifs with h1 h2 h3
  · exact hf
  · rcases lt_or_eq_of_le hf with hlt | heq
    · omega
    · exfalso
      rw [heq] at h2
      linarith
  · exact hf
  · rcases lt_or_eq_of_le hf with hlt | heq
    · omega
    · exfalso
      rw [heq] at h1
      linarith [not_lt.mp h1]

theorem round2_nonneg {q : ℚ} (hq : 0 ≤ q) : 0 ≤ round2 q := by
  unfold round2
  have h : (0 : ℤ) ≤ roundHalfEven (q * 100) := roundHalfEven_nonneg (by linarith)
  have : (0 : ℚ) ≤ (roundHalfEven (q * 100) : ℚ) := by exact_mod_cast h
  positivity

theorem round2_le_100 {q : ℚ} (hq : q ≤ 100) : round2 q ≤ 100 := by
  unfold round2
  have h1 : q * 100 ≤ ((10000 : ℤ) : ℚ) := by push_cast; linarith
  have h2 : roundHalfEven (q * 100) ≤ 10000 := roundHalfEven_le h1
  have h3 : (roundHalfEven (q * 100) : ℚ) ≤ 10000 := by exact_mod_cast h2
  rw [div_le_iff₀ (by norm_num)]
  linarith

theorem round2_intCast (n : ℤ) : round2 (n : ℚ) = n := by
  unfold round2
  have : ((n : ℚ)) * 100 = ((n * 100 : ℤ) : ℚ) := by push_cast; ring
  rw [this, roundHalfEven_intCast]
  push_cast
  ring

theorem uptimeRaw_nonneg (l : List Check) : 0 ≤ uptimeRaw l := by
  unfold uptimeRaw
  split_ifs
  · positivity
  · exact le_refl 0

theorem uptimeRaw_le_100 (l : List Check) : uptimeRaw l ≤ 100 := by
  unfold uptimeRaw
  split_ifs with h
  · have hs : l.countP (fun c => c.status == "success") ≤ l.length :=
      List.countP_le_length _
    have hlen : (0 : ℚ) < (l.length : ℚ) := by exact_mod_cast h
    have hq : ((l.countP (fun c => c.status == "success") : ℚ) / (l.length : ℚ)) ≤ 1 := by
      rw [div_le_one hlen]
      exact_mod_cast hs
    linarith
  · norm_num

theorem uptimeRaw_claim_form (l : List Check) :
    uptimeRaw l =
      if l.length = 0 then 0
      else 100 * (l.countP (fun c => c.status == "success") : ℚ) / (l.length : ℚ) := by
  unfold uptimeRaw
  rcases Nat.eq_zero_or_pos l.length with h | h
  · simp [h]
  · rw [if_pos h, if_neg (by omega)]
    ring

theorem latestCheck_cons_isSome (c : Check) (cs : List Check) :
    (latestCheck (c :: cs)).isSome := by
  unfold latestCheck
  cases latestCheck cs with
  | none => rfl
  | some m => by_cases h : m.timestamp > c.timestamp <;> simp [h]

theorem latestCheck_eq_none_iff (l : List Check) : latestCheck l = none ↔ l = [] := by
  cases l with
  | nil => simp [latestCheck]
  | cons c cs =>
    constructor
    · intro h
      have := latestCheck_cons_isSome c cs
      rw [h] at this
      simp at this
    · intro h
      exact absurd h (by simp)

theorem latestCheck_spec :
    ∀ (l : List Check) (m : Check), latestCheck l = some m →
      m ∈ l ∧ ∀ c ∈ l, c.timestamp ≤ m.timestamp := by
  intro l
  induction l with
  | nil => intro m h; simp [latestCheck] at h
  | cons c cs ih =>
    intro m h
    rw [latestCheck] at h
    cases hcs : latestCheck cs with
    | none =>
      rw [hcs] at h
      have hnil : cs = [] := (latestCheck_eq_none_iff cs).mp hcs
      subst hnil
      simp at h
      subst h
      simp
    | some m0 =>
      rw [hcs] at h
      obtain ⟨hmem, hbound⟩ := ih m0 hcs
      dsimp only at h
      by_cases hgt : m0.timestamp > c.timestamp
      · rw [if_pos hgt] at h
        obtain rfl : m0 = m := by simpa using h
        refine ⟨List.mem_cons_of_mem _ hmem, ?_⟩
        intro x hx
        rcases List.mem_cons.mp hx with rfl | hx
        · exact le_of_lt hgt
        · exact hbound x hx
      · rw [if_neg hgt] at h
        obtain rfl : c = m := by simpa using h
        refine ⟨List.mem_cons_self _ _, ?_⟩
        intro x hx
        rcases List.mem_cons.mp hx with rfl | hx
        · exact le_refl _
        · exact le_trans (hbound x hx) (not_lt.mp hgt)

theorem checksFor_add_same (db : DB) (i : Nat) (cd : Int) (st : String) (ms now : Int) :
    checksFor (add_check_result db i cd st ms now) i =
      checksFor db i ++ [⟨now, st, cd, ms⟩] := by
  unfold checksFor add_check_result
  simp

theorem checksFor_add_ne (db : DB) (i j : Nat) (cd : Int) (st : String) (ms now : Int)
    (h : j ≠ i) :
    checksFor (add_check_result db i cd st ms now) j = checksFor db j := by
  unfold checksFor add_check_result
  simp [List.filter_append, Ne.symm h]

theorem check_single_url_shape (db : DB) (i : Nat) (r : HttpResult) (ms now : Int) :
    ∃ st cd, check_single_url db i r ms now = add_check_result db i cd st ms now := by
  cases r with
  | ok code => exact ⟨_, _, rfl⟩
  | error e => cases e <;> exact ⟨_, _, rfl⟩

theorem checksFor_single_len (db : DB) (i : Nat) (r : HttpResult) (ms now : Int) :
    (checksFor (check_single_url db i r ms now) i).length = (checksFor db i).length + 1 := by
  obtain ⟨st, cd, h⟩ := check_single_url_shape db i r ms now
  rw [h, checksFor_add_same]
  simp

theorem checksFor_single_ne (db : DB) (i j : Nat) (r : HttpResult) (ms now : Int)
    (h : j ≠ i) :
    checksFor (check_single_url db i r ms now) j = checksFor db j := by
  obtain ⟨st, cd, hs⟩ := check_single_url_shape db i r ms now
  rw [hs, checksFor_add_ne _ _ _ _ _ _ _ h]

theorem check_all_urls_eq_passFold (db : DB) (outcome : Nat → HttpResult)
    (elapsed : Nat → Int) (now : Int) :
    check_all_urls db outcome elapsed now = passFold outcome elapsed now (get_all_urls db) db :=
  rfl

theorem passFold_unchanged (outcome : Nat → HttpResult) (elapsed : Nat → Int) (now : Int) :
    ∀ (rows : List UrlRow) (d : DB) (i : Nat), i ∉ rows.map UrlRow.id →
      checksFor (passFold outcome elapsed now rows d) i = checksFor d i := by
  intro rows
  induction rows with
  | nil => intro d i _; rfl
  | cons r rs ih =>
    intro d i hi
    simp only [List.map_cons, List.mem_cons] at hi
    push_neg at hi
    rw [passFold, List.foldl_cons]
    rw [← passFold]
    rw [ih _ i hi.2]
    exact checksFor_single_ne _ _ _ _ _ _ hi.1

theorem passFold_one_new (outcome : Nat → HttpResult) (elapsed : Nat → Int) (now : Int) :
    ∀ (rows : List UrlRow) (d : DB), (rows.map UrlRow.id).Nodup →
      ∀ row ∈ rows,
        (checksFor (passFold outcome elapsed now rows d) row.id).length
          = (checksFor d row.id).length + 1 := by
  intro rows
  induction rows with
  | nil => intro d _ row hrow; simp at hrow
  | cons r rs ih =>
    intro d hnd row hrow
    rw [List.map_cons] at hnd
    have hnd2 := List.nodup_cons.mp hnd
    rw [passFold, List.foldl_cons, ← passFold]
    rcases List.mem_cons.mp hrow with rfl | hmem
    · rw [passFold_unchanged _ _ _ _ _ _ hnd2.1]
      exact checksFor_single_len _ _ _ _ _
    · have hne : row.id ≠ r.id := by
        intro he
        exact hnd2.1 (he ▸ List.mem_map_of_mem UrlRow.id hmem)
      rw [ih _ hnd2.2 row hmem, checksFor_single_ne _ _ _ _ _ _ hne]

theorem countP_filterMap {α β : Type} (f : α → Option β) (p : β → Bool) :
    ∀ l : List α,
      (l.filterMap f).countP p = l.countP (fun a => ((f a).map p).getD false) := by
  intro l
  induction l with
  | nil => rfl
  | cons a as ih =>
    rw [List.filterMap_cons]
    cases hfa : f a with
    | none =>
      rw [List.countP_cons, ih]
      simp [hfa]
    | some b =>
      rw [List.countP_cons, List.countP_cons, ih]
      simp [hfa]

theorem sched_running_session {s : SchedState} (h : ReachableSched s) :
    s.running = true → s.session.isSome := by
  induction h with
  | init => intro h; simp [initState] at h
  | start s _ _ => intro _; simp [startScheduler]
  | stop s _ _ => intro h; simp [stopScheduler] at h

theorem foldlM_except_ok {α β : Type} (g : α → β) (l : List α) :
    ∀ acc : List β,
      (l.foldlM (fun acc u => pure (acc ++ [g u])) acc : Except String (List β))
        = .ok (acc ++ l.map g) := by
  induction l with
  | nil => intro acc; simp [List.foldlM, pure, Except.pure]
  | cons a as ih =>
    intro acc
    rw [List.foldlM]
    show (as.foldlM (fun acc u => pure (acc ++ [g u])) (acc ++ [g a])
      : Except String (List β)) = _
    rw [ih]
    simp

theorem sqlTsGt_stored_iso (t b : Int) :
    sqlTsGt (storedRender t) (isoRender b) = decide (tsDate b < tsDate t) := by
  unfold sqlTsGt storedRender isoRender
  by_cases h1 : tsDate b < tsDate t
  · simp [h1]
  · by_cases h2 : tsDate t = tsDate b
    · simp [h1, h2]
    · simp [h1, h2]

theorem windowChecks_eq_date_filter (db : DB) (url_id : Nat) (now : Int) :
    windowChecks db url_id now =
      (checksFor db url_id).filter
        (fun c => tsDate (now - 86400) < tsDate c.timestamp) := by
  unfold windowChecks
  apply List.filter_congr
  intro c _
  rw [sqlTsGt_stored_iso]

theorem uptimeRaw_nil : uptimeRaw [] = 0 := by
  unfold uptimeRaw
  norm_num

theorem round2_zero : round2 0 = 0 := by
  have h := round2_intCast 0
  push_cast at h
  exact h

theorem exDb6_window_empty : windowChecks exDb6 1 8641800 = [] := by
  decide

theorem exDb6_uptime_zero : round2 (uptimeRaw (windowChecks exDb6 1 8641800)) = 0 := by
  rw [exDb6_window_empty, uptimeRaw_nil, round2_zero]

theorem exDb6_trailing :
    trailing24h (checksFor exDb6 1) 8641800 =
      [⟨8634600, "error", 500, 10⟩, ⟨8638200, "success", 200, 10⟩] := by
  decide

theorem exDb6_trailing_uptime :
    round2 (uptimeRaw (trailing24h (checksFor exDb6 1) 8641800)) = 50 := by
  rw [exDb6_trailing]
  have hup : uptimeRaw [⟨8634600, "error", 500, 10⟩, ⟨8638200, "success", 200, 10⟩] = 50 := by
    unfold uptimeRaw
    norm_num [List.countP_cons, List.countP_nil]
    rw [if_neg (by decide)]
    norm_num
  rw [hup]
  have h50 := round2_intCast 50
  push_cast at h50
  exact h50

theorem exDb6_eval : get_url_status exDb6 "https://a.example" none 8641800 =
    some ⟨"https://a.example", round2 (uptimeRaw (windowChecks exDb6 1 8641800)),
      some 8638200, none⟩ :=
  rfl

/-! ### Claim theorems -/

/-- C1 (amended): for every target, the uptime snapshot's percentage equals
`100 * successful_count / total_count` computed over the ProbeRecords the SQL
timestamp filter matches — because of the stored-string versus isoformat-bound
comparison these are the records whose calendar date is later than the date of
`now - 24h`, a subset of the trailing 24-hour window, see
`windowChecks_eq_date_filter` — equals 0 when no record matches, is rounded to
2 decimal places, and always lies in [0, 100]. -/
theorem get_url_status_uptime_formula (db : DB) (url : String) (user_id : Option Nat)
    (now : Int) (snap : UrlStatus)
    (h : get_url_status db url user_id now = some snap) :
    ∃ row, lookupUrlRow db url user_id = some row ∧
      snap.uptime_percentage =
        round2 (if (windowChecks db row.id now).length = 0 then 0
          else 100 * ((windowChecks db row.id now).countP
              (fun c => c.status == "success") : ℚ) / ((windowChecks db row.id now).length : ℚ)) ∧
      0 ≤ snap.uptime_percentage ∧ snap.uptime_percentage ≤ 100 := by
  unfold get_url_status at h
  cases hrow : lookupUrlRow db url user_id with
  | none => rw [hrow] at h; exact absurd h (by simp)
  | some row =>
    rw [hrow] at h
    injection h with h
    subst h
    refine ⟨row, rfl, ?_, ?_, ?_⟩
    · rw [← uptimeRaw_claim_form]
    · exact round2_nonneg (uptimeRaw_nonneg _)
    · exact round2_le_100 (uptimeRaw_le_100 _)

/-- Witness for C1: the snapshot of the example target with an empty history
has a percentage, it satisfies the formula, and it lies in [0, 100]. -/
theorem get_url_status_uptime_formula_witness :
    ∃ snap, get_url_status exDb "https://a.example" none 1000 = some snap ∧
      0 ≤ snap.uptime_percentage ∧ snap.uptime_percentage ≤ 100 := by
  have h : get_url_status exDb "https://a.example" none 1000 =
      some ⟨"https://a.example", round2 (uptimeRaw (windowChecks exDb 1 1000)), none, none⟩ :=
    rfl
  obtain ⟨row, _, _, h0, h100⟩ :=
    get_url_status_uptime_formula exDb "https://a.example" none 1000 _ h
  exact ⟨_, h, h0, h100⟩

/-- Counterexample to C1 as stated: just after midnight the percentage is not
computed over the trailing 24-hour window.  With a success 1 h ago, an error
2 h ago and a success 25 h ago, the trailing-24h formula yields 50, but the
snapshot reports 0: the two fresh records are on the previous calendar date,
and their stored `"YYYY-MM-DD HH:MM:SS"` strings sort below the
`"YYYY-MM-DDTHH:MM:SS"` bound because the space byte sorts below the T. -/
theorem get_url_status_counts_non_window_set :
    ∃ snap, get_url_status exDb6 "https://a.example" none 8641800 = some snap ∧
      snap.uptime_percentage = 0 ∧
      round2 (uptimeRaw (trailing24h (checksFor exDb6 1) 8641800)) = 50 ∧
      snap.uptime_percentage ≠
        round2 (uptimeRaw (trailing24h (checksFor exDb6 1) 8641800)) := by
  refine ⟨_, exDb6_eval, ?_, exDb6_trailing_uptime, ?_⟩
  · exact exDb6_uptime_zero
  · show round2 (uptimeRaw (windowChecks exDb6 1 8641800)) ≠ _
    rw [exDb6_uptime_zero, exDb6_trailing_uptime]
    norm_num

/-- C2 (evaluating the code at the failing input): the SQL timestamp filter is
calendar-date-granular, not the strict trailing 24-hour window.  At 00:30 of
day 100, the records 1 h and 2 h old (day 99) are all excluded — the filter
matches nothing, while the trailing 24-hour window of the spec holds exactly
the two fresh records — so the snapshot's percentage is 0.00 instead of the
claimed 50.00. -/
theorem get_url_status_window_is_date_granular :
    windowChecks exDb6 1 8641800 = [] ∧
    trailing24h (checksFor exDb6 1) 8641800 =
      [⟨8634600, "error", 500, 10⟩, ⟨8638200, "success", 200, 10⟩] ∧
    (get_url_status exDb6 "https://a.example" none 8641800).map
      UrlStatus.uptime_percentage = some 0 := by
  refine ⟨exDb6_window_empty, exDb6_trailing, ?_⟩
  rw [exDb6_eval]
  simp only [Option.map_some']
  rw [exDb6_uptime_zero]

/-- C3: for every target, the snapshot's `last_checked` equals the timestamp of
the target's most recent ProbeRecord regardless of age (not limited to the
24-hour window), and is `none` exactly when the target has no ProbeRecords. -/
theorem get_url_status_last_checked (db : DB) (url : String) (user_id : Option Nat)
    (now : Int) (snap : UrlStatus) (row : UrlRow)
    (hrow : lookupUrlRow db url user_id = some row)
    (h : get_url_status db url user_id now = some snap) :
    (snap.last_checked = none ↔ checksFor db row.id = []) ∧
    (∀ t, snap.last_checked = some t →
      (∃ c ∈ checksFor db row.id, c.timestamp = t) ∧
      ∀ c ∈ checksFor db row.id, c.timestamp ≤ t) := by
  unfold get_url_status at h
  rw [hrow] at h
  injection h with h
  subst h
  constructor
  · show (latestCheck (checksFor db row.id)).map Check.timestamp = none ↔ _
    rw [Option.map_eq_none']
    exact latestCheck_eq_none_iff _
  · intro t ht
    show _ ∧ _
    replace ht : (latestCheck (checksFor db row.id)).map Check.timestamp = some t := ht
    cases hl : latestCheck (checksFor db row.id) with
    | none => rw [hl] at ht; simp at ht
    | some m =>
      rw [hl] at ht
      simp only [Option.map_some'] at ht
      injection ht with ht
      obtain ⟨hmem, hbound⟩ := latestCheck_spec _ m hl
      subst ht
      exact ⟨⟨m, hmem, rfl⟩, hbound⟩

/-- Witness for C3: in the three-record example the most recent record of any
age (timestamp 96400) is `last_checked`, and it bounds every record. -/
theorem get_url_status_last_checked_witness :
    (∃ c ∈ checksFor exDb2 1, c.timestamp = 96400) ∧
      ∀ c ∈ checksFor exDb2 1, c.timestamp ≤ 96400 := by
  have h : get_url_status exDb2 "https://a.example" none 100000 =
      some ⟨"https://a.example", round2 (uptimeRaw (windowChecks exDb2 1 100000)),
        some 96400, none⟩ := rfl
  have hc := get_url_status_last_checked exDb2 "https://a.example" none 100000 _
    ⟨1, "https://a.example", 0, 1, none⟩ rfl h
  exact hc.2 96400 rfl

/-- C4: for every probe outcome, the recorded ProbeRecord is classified as:
HTTP status < 400 → status `success` with the code as-is; status ≥ 400 →
status `error` with the code as-is; a timeout → `error` with code 0; and any
connection-level failure → `error` with code 0. -/
theorem check_single_url_classification (db : DB) (url_id : Nat) (ms now code : Int) :
    (code < 400 →
      (check_single_url db url_id (.ok code) ms now).checks
        = db.checks ++ [(url_id, ⟨now, "success", code, ms⟩)]) ∧
    (400 ≤ code →
      (check_single_url db url_id (.ok code) ms now).checks
        = db.checks ++ [(url_id, ⟨now, "error", code, ms⟩)]) ∧
    ((check_single_url db url_id (.error .timeout) ms now).checks
        = db.checks ++ [(url_id, ⟨now, "error", 0, ms⟩)]) ∧
    ((check_single_url db url_id (.error .clientError) ms now).checks
        = db.checks ++ [(url_id, ⟨now, "error", 0, ms⟩)]) ∧
    ((check_single_url db url_id (.error .otherExn) ms now).checks
        = db.checks ++ [(url_id, ⟨now, "error", 0, ms⟩)]) := by
  refine ⟨?_, ?_, rfl, rfl, rfl⟩
  · intro hlt
    show (add_check_result db url_id code (if code < 400 then "success" else "error") ms now).checks = _
    rw [if_pos hlt]
    rfl
  · intro hge
    show (add_check_result db url_id code (if code < 400 then "success" else "error") ms now).checks = _
    rw [if_neg (by omega)]
    rfl

/-- Witness for C4: the classification at codes 200 and 404, and on a timeout. -/
theorem check_single_url_classification_witness :
    (check_single_url exDb 1 (.ok 200) 5 10).checks
        = exDb.checks ++ [(1, ⟨10, "success", 200, 5⟩)] ∧
    (check_single_url exDb 1 (.ok 404) 5 10).checks
        = exDb.checks ++ [(1, ⟨10, "error", 404, 5⟩)] ∧
    (check_single_url exDb 1 (.error .timeout) 5 10).checks
        = exDb.checks ++ [(1, ⟨10, "error", 0, 5⟩)] :=
  ⟨(check_single_url_classification exDb 1 5 10 200).1 (by norm_num),
   (check_single_url_classification exDb 1 5 10 404).2.1 (by norm_num),
   (check_single_url_classification exDb 1 5 10 404).2.2.1⟩

/-- C5: for every probing pass over the registered targets, whatever subset of
the probes fail (every assignment of HTTP outcomes, exceptions included), after
the pass each target has exactly one new ProbeRecord; the pass is a total
function into the database state, so no error propagates to its caller. -/
theorem check_all_urls_one_record_each (db : DB) (outcome : Nat → HttpResult)
    (elapsed : Nat → Int) (now : Int)
    (hids : (db.urls.map UrlRow.id).Nodup) :
    ∀ row ∈ db.urls,
      (checksFor (check_all_urls db outcome elapsed now) row.id).length
        = (checksFor db row.id).length + 1 := by
  intro row hrow
  rw [check_all_urls_eq_passFold]
  exact passFold_one_new outcome elapsed now (get_all_urls db) db hids row hrow

/-- Witness for C5: a pass over two targets in which the first probe times out
and the second succeeds leaves each target exactly one new record. -/
theorem check_all_urls_one_record_each_witness :
    (checksFor (check_all_urls exDb5 exOutcome (fun _ => 7) 50) 1).length
        = (checksFor exDb5 1).length + 1 ∧
    (checksFor (check_all_urls exDb5 exOutcome (fun _ => 7) 50) 2).length
        = (checksFor exDb5 2).length + 1 := by
  constructor
  · exact check_all_urls_one_record_each exDb5 exOutcome (fun _ => 7) 50 (by decide)
      ⟨1, "https://a.example", 0, 1, none⟩ (by decide)
  · exact check_all_urls_one_record_each exDb5 exOutcome (fun _ => 7) 50 (by decide)
      ⟨2, "https://b.example", 0, 1, none⟩ (by decide)

/-- C6: on entering Running the scheduler performs one full probing pass
immediately, before the first sleep; each loop iteration (with the
notification service available) sleeps 300 seconds, performs one full pass,
then triggers the periodic notification broadcast. -/
theorem start_monitoring_trace (n : Nat) :
    start_monitoring true n =
      SchedEvent.createSession :: SchedEvent.checkPass ::
        (List.replicate n
          [SchedEvent.sleep 300, SchedEvent.checkPass, SchedEvent.notifyAll]).flatten := by
  unfold start_monitoring
  congr 1
  congr 1
  induction n with
  | zero => rfl
  | succ m ih =>
    rw [List.replicate_succ, List.flatten_cons, monitorLoop, ih]
    rfl

/-- Counterexample to C7 as stated: after `start` then `stop` the scheduler is
not Running, yet an immediate probe of a registered URL still uses the shared
session object (which `stop_monitoring` closed but did not discard), not a
short-lived disposable one. -/
theorem probe_now_uses_closed_shared_session :
    (check_single_url_immediately exDb (stopScheduler (startScheduler initState))
        "https://a.example" (.ok 200) 5 10).2.2 = SessionUse.shared ∧
    (stopScheduler (startScheduler initState)).running = false ∧
    (check_single_url_immediately exDb (stopScheduler (startScheduler initState))
        "https://a.example" (.ok 200) 5 10).2.2 ≠
      (if (stopScheduler (startScheduler initState)).running then SessionUse.shared
       else SessionUse.temporary) := by
  refine ⟨rfl, rfl, ?_⟩
  decide

/-- C7 (amended): an immediate single-target probe looks the target up by URL
and uses the shared connection resource exactly when one exists — which holds
whenever the scheduler is Running, but also after it has been stopped, since
stopping closes the session without discarding the reference; a short-lived
disposable session is used only when no shared session was ever created. -/
theorem probe_now_session_choice (s : SchedState) (hs : ReachableSched s)
    (db : DB) (url : String) (r : HttpResult) (ms now : Int) (row : UrlRow)
    (hrow : (get_all_urls db).find? (fun x => x.url == url) = some row) :
    ((check_single_url_immediately db s url r ms now).2.2 = SessionUse.shared
        ↔ s.session.isSome) ∧
    (s.running = true →
      (check_single_url_immediately db s url r ms now).2.2 = SessionUse.shared) := by
  unfold check_single_url_immediately
  rw [hrow]
  constructor
  · by_cases hses : s.session.isSome
    · simp [hses]
    · simp [hses]
  · intro hrun
    have hses := sched_running_session hs hrun
    simp [hses]

/-- Witness for C7 (amended): in the started state the immediate probe of the
example URL uses the shared session. -/
theorem probe_now_session_choice_witness :
    (check_single_url_immediately exDb (startScheduler initState)
        "https://a.example" (.ok 200) 5 10).2.2 = SessionUse.shared := by
  exact (probe_now_session_choice (startScheduler initState)
    (ReachableSched.start initState ReachableSched.init) exDb "https://a.example"
    (.ok 200) 5 10 ⟨1, "https://a.example", 0, 1, none⟩ rfl).2 rfl

/-- C8: for every user, the degraded-site count of the notification summary
equals the number of that user's targets whose current snapshot has
`uptime_percentage < 99` (a target for which `get_url_status` returns nothing
contributes no summary entry and is not counted). -/
theorem down_sites_eq_degraded_count (db : DB) (uid : Nat) (now : Int) :
    down_sites db uid now =
      (db.urls.filter (fun r => r.user_id == uid)).countP
        (fun r => ((get_url_status db r.url (some uid) now).map
          (fun s => decide (s.uptime_percentage < 99))).getD false) := by
  unfold down_sites summary_data
  rw [countP_filterMap]
  unfold get_user_urls
  exact (List.perm_insertionSort _ _).countP_eq _

/-- C9: with e-mail configured, the periodic broadcast over all users owning a
target never escapes to its caller with an exception — whatever per-user
storage failures and delivery outcomes occur it returns the full outcome list,
one entry per such user — and a single user's summary reports a build failure
to its caller as the boolean `false` rather than raising. -/
theorem broadcast_processes_every_user (db : DB) (dbFail : Nat → Bool)
    (deliver : Nat → String → Bool) (now : Int) :
    send_notifications_to_all_usersE db true dbFail deliver now =
      .ok ((get_users_with_urls db).map
        (fun u => (u.id, send_user_uptime_summary db true dbFail deliver u.id u.email now))) ∧
    (∀ uid email, dbFail uid = true →
      send_user_uptime_summary db true dbFail deliver uid email now = false) := by
  constructor
  · unfold send_notifications_to_all_usersE
    rw [if_neg (by simp)]
    exact (foldlM_except_ok _ _ []).trans (by simp)
  · intro uid email hfail
    unfold send_user_uptime_summary send_user_uptime_summaryE
    rw [if_neg (by simp), if_pos hfail]

/-- C10: an immediate single-target probe for a URL that is not registered is a
silent no-op: no ProbeRecord is written, no error is raised, and the database
and scheduler state are returned unchanged. -/
theorem probe_now_unknown_url_noop (db : DB) (s : SchedState) (url : String)
    (r : HttpResult) (ms now : Int)
    (h : (get_all_urls db).find? (fun x => x.url == url) = none) :
    check_single_url_immediately db s url r ms now = (db, s, SessionUse.noop) := by
  unfold check_single_url_immediately
  rw [h]

/-- Witness for C10: probing an unregistered URL against the empty database
changes nothing. -/
theorem probe_now_unknown_url_noop_witness :
    check_single_url_immediately exDb0 initState "https://nowhere.example"
        (.ok 200) 5 10 = (exDb0, initState, SessionUse.noop) :=
  probe_now_unknown_url_noop exDb0 initState "https://nowhere.example" (.ok 200) 5 10 rfl

/-- Witness for C9: with one registered user whose summary build fails, the
broadcast still returns the full (one-entry) outcome list and the single-user
call reports `false`. -/
theorem broadcast_processes_every_user_witness :
    send_notifications_to_all_usersE exDb true (fun uid => uid == 1) (fun _ _ => true) 0 =
      .ok [(1, false)] ∧
    send_user_uptime_summary exDb true (fun uid => uid == 1) (fun _ _ => true) 1
      "alice@example.com" 0 = false := by
  have h := broadcast_processes_every_user exDb (fun uid => uid == 1) (fun _ _ => true) 0
  constructor
  · rw [h.1]
    have hu : get_users_with_urls exDb = [⟨1, "alice", "alice@example.com"⟩] := rfl
    rw [hu, List.map_cons, List.map_nil, h.2 1 "alice@example.com" rfl]
  · exact h.2 1 "alice@example.com" rfl
